import Mathlib

/-!
Shallow embedding of the MCP (Model Context Protocol) client of this
repository: the protocol client (`plugins/plugin_utils/client.py`), the
stdio and streamable-HTTP transports (`plugins/plugin_utils/transport.py`)
and the error model (`plugins/plugin_utils/errors.py`).

Python runtime values that flow through the validator are modelled by
`PyValue`; Python exceptions by `PyErr` (one constructor per exception
class that the embedded code raises).  Stateful methods of `MCPClient`
become explicit state-passing functions that also return the list of
calls they made on the transport (`TEvent`), so that properties about
observable transport traffic can be stated.
-/

/-- Python runtime values as used by the client code.  `float` carries no
payload: no embedded operation inspects the numeric content of a float,
only its runtime type.  Python `dict`s are modelled as association lists
(first binding wins on lookup; Python dicts have unique keys). -/
inductive PyValue where
  | none
  | bool (b : Bool)
  | int (n : Int)
  | float
  | str (s : String)
  | list (xs : List PyValue)
  | dict (kvs : List (String × PyValue))
deriving Repr

/-- Python `v is None`. -/
def isNone : PyValue → Bool
  | .none => true
  | _ => false

/-- Python `type(v).__name__` for the modelled values. -/
def typeName : PyValue → String
  | .none => "NoneType"
  | .bool _ => "bool"
  | .int _ => "int"
  | .float => "float"
  | .str _ => "str"
  | .list _ => "list"
  | .dict _ => "dict"

/-- Python `isinstance(v, schema_type_to_python_type[ty])` for the type
mapping of `MCPClient._validate_parameter_type` (client.py lines 297-306).
In Python, `bool` is a subclass of `int`, so a `bool` value is an instance
of `int` and hence also of `(int, float)`. -/
def pyIsInstance (v : PyValue) (ty : String) : Bool :=
  match ty with
  | "string" => match v with | .str _ => true | _ => false
  | "number" => match v with | .int _ => true | .bool _ => true | .float => true | _ => false
  | "integer" => match v with | .int _ => true | .bool _ => true | _ => false
  | "boolean" => match v with | .bool _ => true | _ => false
  | "array" => match v with | .list _ => true | _ => false
  | "object" => match v with | .dict _ => true | _ => false
  | "null" => match v with | .none => true | _ => false
  | _ => false

/-- The keys of `schema_type_to_python_type` (client.py lines 298-306). -/
def supportedSchemaTypes : List String :=
  ["string", "number", "integer", "boolean", "array", "object", "null"]

/-- Exceptions raised by the embedded code: `ValueError` (validation),
`MCPError` (errors.py), `AnsibleConnectionFailure` (transport errors). -/
inductive PyErr where
  | valueError (msg : String)
  | mcpError (msg : String)
  | connFailure (msg : String)
deriving DecidableEq, Repr

/-- Python `type(e).__name__` of a raised exception: the concrete
exception class, which is what a caller can dispatch on by type. -/
def errClass : PyErr → String
  | .valueError _ => "ValueError"
  | .mcpError _ => "MCPError"
  | .connFailure _ => "AnsibleConnectionFailure"

/-- Message carried by a raised exception (Python `str(e)`). -/
def errMsg : PyErr → String
  | .valueError m => m
  | .mcpError m => m
  | .connFailure m => m

/-- Schema of one parameter, as read by `_validate_parameter_type`:
only its `type` key is consulted (`parameter_schema.get("type")`, which
is `none` when the key is absent). -/
structure ParamSchema where
  type : Option String
deriving DecidableEq, Repr

/-- A tool input schema as read by `MCPClient.validate` (client.py lines
332-337): `schema.get("type")`, `schema.get("properties", {})` and
`schema.get("required", [])`. -/
structure InputSchema where
  type : Option String
  properties : List (String × ParamSchema)
  required : List String
deriving DecidableEq, Repr

/-- A tool definition from the server listing: `{name, inputSchema}`
(missing `inputSchema` in the source defaults to the empty dict, i.e.
`InputSchema.mk Option.none [] []`). -/
structure ToolDef where
  name : String
  inputSchema : InputSchema
deriving DecidableEq, Repr

/-- The decoded `result` of a `tools/list` request: its `"tools"` entry
(`tools_response.get("tools", [])` in `MCPClient.get_tool`). -/
structure ToolListing where
  tools : List ToolDef
deriving DecidableEq, Repr

/-- MCPClient._validate_schema_type (client.py lines 216-230): fail iff a
truthy `type` other than `"object"` is declared (Python `if schema_type
and schema_type != "object"`; an absent or empty type passes). -/
def validate_schema_type (tool : String) (schema : InputSchema) : Except PyErr Unit :=
  match schema.type with
  | Option.none => .ok ()
  | Option.some t =>
    if t ≠ "" ∧ t ≠ "object" then
      .error (.valueError ("Tool '" ++ tool ++ "' has unsupported schema type '" ++ t ++
        "', expected 'object'"))
    else .ok ()

/-- Keys of a kwargs association list (Python `param in kwargs`). -/
def hasKey (kwargs : List (String × PyValue)) (k : String) : Bool :=
  kwargs.any (fun kv => kv.fst = k)

/-- MCPClient._validate_required_parameters (client.py lines 232-249):
collect every required name absent from kwargs; fail listing them all,
comma-joined, in one message. -/
def validate_required_parameters (tool : String) (kwargs : List (String × PyValue))
    (required : List String) : Except PyErr Unit :=
  let missing := required.filter (fun p => ¬ hasKey kwargs p)
  if missing ≠ [] then
    .error (.valueError ("Tool '" ++ tool ++ "' missing required parameters: " ++
      String.intercalate ", " missing))
  else .ok ()

/-- MCPClient._validate_unknown_parameters (client.py lines 251-269): only
checked when `properties` is non-empty (Python `if schema_properties:`);
fail listing every kwarg name not in `properties`, comma-joined. -/
def validate_unknown_parameters (tool : String) (kwargs : List (String × PyValue))
    (props : List (String × ParamSchema)) : Except PyErr Unit :=
  if props = [] then .ok ()
  else
    let unknown := (kwargs.filter (fun kv => ¬ props.any (fun p => p.fst = kv.fst))).map
      (fun kv => kv.fst)
    if unknown ≠ [] then
      .error (.valueError ("Tool '" ++ tool ++ "' received unknown parameters: " ++
        String.intercalate ", " unknown))
    else .ok ()

/-- MCPClient._validate_parameter_type (client.py lines 271-318).  The
order of checks mirrors the source: a falsy declared type (absent or
empty string) disables the check; a `None` value is handled first and
only the declared type `"null"` admits it; then the declared type is
looked up in the supported mapping (unsupported types fail); finally the
Python `isinstance` check decides a mismatch. -/
def validate_parameter_type (tool pname : String) (pvalue : PyValue)
    (pschema : ParamSchema) : Except PyErr Unit :=
  match pschema.type with
  | Option.none => .ok ()
  | Option.some ty =>
    if ty = "" then .ok ()
    else if isNone pvalue then
      if ty ≠ "null" then
        .error (.valueError ("Parameter '" ++ pname ++ "' for tool '" ++ tool ++
          "' cannot be None (expected type '" ++ ty ++ "')"))
      else .ok ()
    else if ¬ supportedSchemaTypes.contains ty then
      .error (.valueError ("Tool '" ++ tool ++ "' has unsupported parameter type '" ++ ty ++
        "' for parameter '" ++ pname ++ "'"))
    else if ¬ pyIsInstance pvalue ty then
      .error (.valueError ("Parameter '" ++ pname ++ "' for tool '" ++ tool ++
        "' should be of type '" ++ ty ++ "', but got '" ++ typeName pvalue ++ "'"))
    else .ok ()

/-- The per-parameter loop of `MCPClient.validate` (client.py lines
345-350): iterate kwargs in order, type-checking each one that appears
in `properties` (first matching property is used; Python dicts have
unique keys). -/
def validate_param_types (tool : String) (kwargs : List (String × PyValue))
    (props : List (String × ParamSchema)) : Except PyErr Unit :=
  match kwargs with
  | [] => .ok ()
  | kv :: rest =>
    match props.find? (fun p => p.fst = kv.fst) with
    | Option.some p =>
      match validate_parameter_type tool kv.fst kv.snd p.snd with
      | .ok _ => validate_param_types tool rest props
      | .error e => .error e
    | Option.none => validate_param_types tool rest props

/-- The schema-validation part of `MCPClient.validate` (client.py lines
339-350), after the tool definition has been fetched: schema-type check,
then required check, then unknown check, then per-parameter type checks,
in that order; the first failure is raised. -/
def validateArgs (tool : String) (schema : InputSchema)
    (kwargs : List (String × PyValue)) : Except PyErr Unit :=
  match validate_schema_type tool schema with
  | .error e => .error e
  | .ok _ =>
    match validate_required_parameters tool kwargs schema.required with
    | .error e => .error e
    | .ok _ =>
      match validate_unknown_parameters tool kwargs schema.properties with
      | .error e => .error e
      | .ok _ => validate_param_types tool kwargs schema.properties

/-- A JSON-RPC request as composed by `MCPClient._build_request`
(client.py lines 41-60): the `params` key is present exactly when a
params argument was supplied (`Option.some`). -/
structure Request where
  jsonrpc : String
  id : Nat
  method : String
  params : Option (List (String × PyValue))
deriving Repr

/-- A JSON-RPC notification (no id): only the initialized notification
is sent by the client (client.py lines 113-116). -/
structure Notification where
  jsonrpc : String
  method : String
deriving Repr, DecidableEq

/-- One observable call made by the client on its transport. -/
inductive TEvent where
  | connect
  | request (r : Request)
  | notify (n : Notification)
  | close
deriving Repr

/-- The mutable fields of `MCPClient.__init__` (client.py lines 20-30):
`_connected`, `_server_info`, `_tools_cache`, `_request_id`. -/
structure ClientState where
  connected : Bool
  serverInfo : Option PyValue
  toolsCache : Option ToolListing
  requestId : Nat
deriving Repr

/-- A freshly constructed client. -/
def initialClientState : ClientState :=
  ClientState.mk false Option.none Option.none 0

/-- Replace only the request-id counter of a client state. -/
def setRid (s : ClientState) (n : Nat) : ClientState :=
  ClientState.mk s.connected s.serverInfo s.toolsCache n

/-- MCPClient._get_next_id (client.py lines 32-39): increment, then
return the incremented counter. -/
def get_next_id (s : ClientState) : ClientState × Nat :=
  (setRid s (s.requestId + 1), s.requestId + 1)

/-- MCPClient._build_request (client.py lines 41-60): consume the next
id and compose the JSON-RPC envelope; `params` key added only when
params are supplied. -/
def build_request (s : ClientState) (method : String)
    (params : Option (List (String × PyValue))) : ClientState × Request :=
  let x := get_next_id s
  (x.1, Request.mk "2.0" x.2 method params)

/-- What a transport `request` call returned, after the shape the client
inspects: `result` when the response dict has a `"result"` key (carrying
its decoded value, of type α), `noResult` otherwise.  `errText` is the
Python string interpolation of `response.get("error", ...)` used in the
error message; no claim depends on its content. -/
inductive RpcResponse (α : Type) where
  | result (v : α)
  | noResult (errText : String)
deriving Repr

/-- MCPClient._handle_response (client.py lines 62-80): extract `result`
or raise `MCPError`. -/
def handle_response {α : Type} (resp : RpcResponse α) (operation : String) :
    Except PyErr α :=
  match resp with
  | .result v => .ok v
  | .noResult errText =>
    .error (.mcpError ("Failed to " ++ operation ++ ": " ++ errText))

/-- Outcome of one client operation: successor state, the transport
calls it made (in order), and its return value or raised exception. -/
structure StepRes (α : Type) where
  state : ClientState
  events : List TEvent
  out : Except PyErr α

/-- The params dict of the handshake request (client.py lines 92-105). -/
def initParams : List (String × PyValue) :=
  [("protocolVersion", .str "2025-03-26"),
   ("capabilities", .dict [("roots", .dict [("listChanged", .bool true)]),
                           ("sampling", .dict [])]),
   ("clientInfo", .dict [("name", .str "ansible-mcp-client"),
                         ("version", .str "1.0.0")])]

/-- The initialized notification (client.py lines 113-116). -/
def initializedNotification : Notification :=
  Notification.mk "2.0" "notifications/initialized"

/-- MCPClient.initialize (client.py lines 82-120).  `transport.connect()`
is called iff `_connected` is unset; the handshake request is sent; on a
response without `result`, `MCPError` is raised and neither
`_server_info` nor `_connected` is assigned (the id counter was already
advanced).  On success `_server_info` is cached, the initialized
notification is sent, and `_connected` is set last. -/
def initStep (s : ClientState) (resp : RpcResponse PyValue) : StepRes Unit :=
  let ev0 : List TEvent := if s.connected then [] else [TEvent.connect]
  let b := build_request s "initialize" (Option.some initParams)
  match handle_response resp "initialize" with
  | .ok v =>
    StepRes.mk (ClientState.mk true (Option.some v) s.toolsCache b.1.requestId)
      (ev0 ++ [TEvent.request b.2, TEvent.notify initializedNotification])
      (.ok ())
  | .error e =>
    StepRes.mk (setRid s b.1.requestId) (ev0 ++ [TEvent.request b.2]) (.error e)

/-- The not-initialized guard shared by list_tools / get_tool / call_tool
(client.py lines 131, 158, 184): `not self._connected or self._server_info
is None`. -/
def notReady (s : ClientState) : Bool :=
  !s.connected || s.serverInfo.isNone

/-- The MCPError raised by the not-initialized guard. -/
def notReadyErr : PyErr :=
  .mcpError "Client not initialized. Call initialize() first."

/-- MCPClient.list_tools (client.py lines 122-144): guard, then return
the cache when present, else fetch `tools/list`, cache and return the
decoded result (nothing is cached when the response lacks `result`). -/
def list_tools (s : ClientState) (resp : RpcResponse ToolListing) : StepRes ToolListing :=
  if notReady s then StepRes.mk s [] (.error notReadyErr)
  else
    match s.toolsCache with
    | Option.some c => StepRes.mk s [] (.ok c)
    | Option.none =>
      let b := build_request s "tools/list" Option.none
      match handle_response resp "list tools" with
      | .ok l =>
        StepRes.mk (ClientState.mk s.connected s.serverInfo (Option.some l) b.1.requestId)
          [TEvent.request b.2] (.ok l)
      | .error e =>
        StepRes.mk (setRid s b.1.requestId) [TEvent.request b.2] (.error e)

/-- MCPClient.get_tool (client.py lines 146-168): guard, list_tools,
then linear search of the listing by name; `MCPError` when absent. -/
def get_tool (s : ClientState) (resp : RpcResponse ToolListing) (tool : String) :
    StepRes ToolDef :=
  if notReady s then StepRes.mk s [] (.error notReadyErr)
  else
    let r := list_tools s resp
    match r.out with
    | .error e => StepRes.mk r.state r.events (.error e)
    | .ok listing =>
      match listing.tools.find? (fun td => td.name = tool) with
      | Option.some td => StepRes.mk r.state r.events (.ok td)
      | Option.none =>
        StepRes.mk r.state r.events (.error (.mcpError ("Tool '" ++ tool ++ "' not found")))

/-- MCPClient.validate (client.py lines 320-350): fetch the tool
definition (possibly issuing a `tools/list` request through get_tool),
then run the pure schema checks of `validateArgs`. -/
def validateStep (s : ClientState) (resp : RpcResponse ToolListing) (tool : String)
    (kwargs : List (String × PyValue)) : StepRes Unit :=
  let r := get_tool s resp tool
  match r.out with
  | .error e => StepRes.mk r.state r.events (.error e)
  | .ok td => StepRes.mk r.state r.events (validateArgs tool td.inputSchema kwargs)

/-- MCPClient.call_tool (client.py lines 170-200): guard, validate (which
may fetch the listing), then build and send the `tools/call` request and
decode its response.  `lresp` is the server reply used if a `tools/list`
fetch happens inside validation; `cresp` the reply to `tools/call`. -/
def call_tool (s : ClientState) (tool : String) (kwargs : List (String × PyValue))
    (lresp : RpcResponse ToolListing) (cresp : RpcResponse PyValue) : StepRes PyValue :=
  if notReady s then StepRes.mk s [] (.error notReadyErr)
  else
    let v := validateStep s lresp tool kwargs
    match v.out with
    | .error e => StepRes.mk v.state v.events (.error e)
    | .ok _ =>
      let b := build_request v.state "tools/call"
        (Option.some [("name", .str tool), ("arguments", .dict kwargs)])
      match handle_response cresp ("call tool '" ++ tool ++ "'") with
      | .ok res =>
        StepRes.mk (setRid v.state b.1.requestId) (v.events ++ [TEvent.request b.2]) (.ok res)
      | .error e =>
        StepRes.mk (setRid v.state b.1.requestId) (v.events ++ [TEvent.request b.2]) (.error e)

/-- MCPClient.close (client.py lines 352-358): close the transport, then
clear the connected flag, the cached server info and tool listing, and
reset the id counter to 0. -/
def closeStep (s : ClientState) : StepRes Unit :=
  let _ := s
  StepRes.mk (ClientState.mk false Option.none Option.none 0) [TEvent.close] (.ok ())

/-- One public client operation together with the server replies it will
observe, so that a whole session is a list of `Op`. -/
inductive Op where
  | init (resp : RpcResponse PyValue)
  | listTools (resp : RpcResponse ToolListing)
  | getTool (tool : String) (resp : RpcResponse ToolListing)
  | callTool (tool : String) (kwargs : List (String × PyValue))
      (lresp : RpcResponse ToolListing) (cresp : RpcResponse PyValue)
  | close

/-- Successor state and transport trace of one operation. -/
def stepOp (s : ClientState) : Op → ClientState × List TEvent
  | .init r => let x := initStep s r; (x.state, x.events)
  | .listTools r => let x := list_tools s r; (x.state, x.events)
  | .getTool t r => let x := get_tool s r t; (x.state, x.events)
  | .callTool t kw lr cr => let x := call_tool s t kw lr cr; (x.state, x.events)
  | .close => let x := closeStep s; (x.state, x.events)

/-- Run a sequence of operations, concatenating the transport traces. -/
def runOps (s : ClientState) : List Op → ClientState × List TEvent
  | [] => (s, [])
  | op :: ops =>
    let x := stepOp s op
    let y := runOps x.1 ops
    (y.1, x.2 ++ y.2)

/-- The ids attached to the outbound requests of a trace, in order
(notifications, connects and closes carry no id). -/
def requestIds : List TEvent → List Nat
  | [] => []
  | .request r :: tr => r.id :: requestIds tr
  | .connect :: tr => requestIds tr
  | .notify _ :: tr => requestIds tr
  | .close :: tr => requestIds tr

/-- The tool definition used by the repository's own unit tests
(tests/unit/plugins/plugin_utils/test_client.py, MockTransport): name
`test_tool`, object schema with one required string parameter `param`. -/
def testTool : ToolDef :=
  ToolDef.mk "test_tool"
    (InputSchema.mk (Option.some "object") [("param", ParamSchema.mk (Option.some "string"))]
      ["param"])

/-- The one-tool listing served by the tests' mock transport. -/
def testListing : ToolListing := ToolListing.mk [testTool]

/-- C9: on a fresh client, building a request for method "tools/list"
with no params yields exactly jsonrpc "2.0", id 1, method "tools/list"
and no params key; and whenever a params object is supplied, the built
request carries it verbatim (and the other fields as given). -/
theorem build_request_shape :
    (build_request initialClientState "tools/list" Option.none).2 =
      Request.mk "2.0" 1 "tools/list" Option.none ∧
    ∀ (s : ClientState) (m : String) (p : List (String × PyValue)),
      (build_request s m (Option.some p)).2.params = Option.some p ∧
      (build_request s m (Option.some p)).2.method = m ∧
      (build_request s m (Option.some p)).2.jsonrpc = "2.0" ∧
      (build_request s m (Option.some p)).2.id = s.requestId + 1 := by
  refine ⟨rfl, ?_⟩
  intro s m p
  exact ⟨rfl, rfl, rfl, rfl⟩

/-- C10: the per-parameter type check accepts a boolean value for a
parameter whose declared schema type is "integer" or "number" (Python
`bool` is a subclass of `int`), and a parameter schema declaring no
type accepts any value, including None. -/
theorem bool_passes_numeric_type_check :
    ∀ (tool pname : String) (b : Bool) (v : PyValue),
      validate_parameter_type tool pname (PyValue.bool b)
        (ParamSchema.mk (Option.some "integer")) = .ok () ∧
      validate_parameter_type tool pname (PyValue.bool b)
        (ParamSchema.mk (Option.some "number")) = .ok () ∧
      validate_parameter_type tool pname v (ParamSchema.mk Option.none) = .ok () ∧
      validate_parameter_type tool pname PyValue.none (ParamSchema.mk Option.none) = .ok () := by
  intro tool pname b v
  refine ⟨?_, ?_, rfl, rfl⟩ <;> cases b <;> rfl

/-- C7 counterexample: the empty string is a declared type outside the
supported primitive categories (and outside "null"), yet the check
accepts any non-null value instead of failing with an
unsupported-schema-type error: Python `if not parameter_type_in_schema`
treats the empty type as no type at all. -/
theorem empty_declared_type_accepted_cex :
    validate_parameter_type "t" "p" (PyValue.int 1) (ParamSchema.mk (Option.some "")) =
      .ok () ∧
    (ParamSchema.mk (Option.some "")).type = Option.some "" ∧
    supportedSchemaTypes.contains "" = false := by
  exact ⟨rfl, rfl, rfl⟩

/-- C7 (amended): for a parameter with a nonempty declared type, a
non-null value whose runtime kind does not match the declared category
(per the source's isinstance mapping) fails naming the parameter, the
declared type and the actual runtime kind; a nonempty declared type
outside the supported categories (and "null") fails as an unsupported
schema type; an absent or empty declared type disables the check. -/
theorem parameter_type_check_behavior :
    ∀ (tool pname ty : String) (v : PyValue),
      (ty ≠ "" → isNone v = false → supportedSchemaTypes.contains ty = true →
        pyIsInstance v ty = false →
        validate_parameter_type tool pname v (ParamSchema.mk (Option.some ty)) =
          .error (.valueError ("Parameter '" ++ pname ++ "' for tool '" ++ tool ++
            "' should be of type '" ++ ty ++ "', but got '" ++ typeName v ++ "'"))) ∧
      (ty ≠ "" → isNone v = false → supportedSchemaTypes.contains ty = false →
        validate_parameter_type tool pname v (ParamSchema.mk (Option.some ty)) =
          .error (.valueError ("Tool '" ++ tool ++ "' has unsupported parameter type '" ++
            ty ++ "' for parameter '" ++ pname ++ "'"))) ∧
      (ty ≠ "" → isNone v = false → supportedSchemaTypes.contains ty = true →
        pyIsInstance v ty = true →
        validate_parameter_type tool pname v (ParamSchema.mk (Option.some ty)) = .ok ()) := by
  intro tool pname ty v
  refine ⟨?_, ?_, ?_⟩ <;> intro hne hv hsup
  · intro hmatch
    have hsup2 : ty ∈ supportedSchemaTypes := by simpa using hsup
    simp [validate_parameter_type, hne, hv, hsup2, hmatch]
  · have hsup2 : ty ∉ supportedSchemaTypes := by simpa using hsup
    simp [validate_parameter_type, hne, hv, hsup2]
  · intro hmatch
    have hsup2 : ty ∈ supportedSchemaTypes := by simpa using hsup
    simp [validate_parameter_type, hne, hv, hsup2, hmatch]

/-- C7 witness: the spec's own example: value 123 against declared type
"string" fails naming the parameter, the expected type `string` and the
actual kind `int`; and the unsupported-type branch fires on a concrete
unknown type. -/
theorem parameter_type_check_behavior_witness :
    validate_parameter_type "t" "param" (PyValue.int 123)
        (ParamSchema.mk (Option.some "string")) =
      .error (.valueError "Parameter 'param' for tool 't' should be of type 'string', but got 'int'") ∧
    validate_parameter_type "t" "param" (PyValue.int 123)
        (ParamSchema.mk (Option.some "frobnicate")) =
      .error (.valueError "Tool 't' has unsupported parameter type 'frobnicate' for parameter 'param'") ∧
    validate_parameter_type "t" "param" (PyValue.str "x")
        (ParamSchema.mk (Option.some "string")) = .ok () := by
  refine ⟨?_, ?_, ?_⟩
  · exact (parameter_type_check_behavior "t" "param" "string" (PyValue.int 123)).1
      (by decide) rfl rfl rfl
  · exact (parameter_type_check_behavior "t" "param" "frobnicate" (PyValue.int 123)).2.1
      (by decide) rfl rfl
  · exact (parameter_type_check_behavior "t" "param" "string" (PyValue.str "x")).2.2
      (by decide) rfl rfl rfl

/-- C6: the validator applies its checks in the fixed order schema-type,
missing-required, unknown-parameters, per-parameter types; each check is
consulted only when every earlier one passed, so the first failing check
determines the reported failure; and the missing-required failure lists
every missing required name together in one comma-joined message. -/
theorem validate_order_first_failure :
    ∀ (tool : String) (schema : InputSchema) (kwargs : List (String × PyValue)),
      (∀ e, validate_schema_type tool schema = .error e →
        validateArgs tool schema kwargs = .error e) ∧
      (validate_schema_type tool schema = .ok () →
        ∀ e, validate_required_parameters tool kwargs schema.required = .error e →
          validateArgs tool schema kwargs = .error e) ∧
      (validate_schema_type tool schema = .ok () →
        validate_required_parameters tool kwargs schema.required = .ok () →
        ∀ e, validate_unknown_parameters tool kwargs schema.properties = .error e →
          validateArgs tool schema kwargs = .error e) ∧
      (validate_schema_type tool schema = .ok () →
        validate_required_parameters tool kwargs schema.required = .ok () →
        validate_unknown_parameters tool kwargs schema.properties = .ok () →
        validateArgs tool schema kwargs = validate_param_types tool kwargs schema.properties) ∧
      (schema.required.filter (fun p => ¬ hasKey kwargs p) ≠ [] →
        validate_required_parameters tool kwargs schema.required =
          .error (.valueError ("Tool '" ++ tool ++ "' missing required parameters: " ++
            String.intercalate ", " (schema.required.filter (fun p => ¬ hasKey kwargs p))))) := by
  intro tool schema kwargs
  refine ⟨?_, ?_, ?_, ?_, ?_⟩
  · intro e h1; simp [validateArgs, h1]
  · intro h1 e h2; simp [validateArgs, h1, h2]
  · intro h1 h2 e h3; simp [validateArgs, h1, h2, h3]
  · intro h1 h2 h3; simp [validateArgs, h1, h2, h3]
  · intro hmiss
    simp only [validate_required_parameters]
    rw [if_pos hmiss]

/-- C6 witness: a schema whose declared type is "array" and whose two
required parameters are both missing reports the schema-type failure
first; with an "object" schema the same call reports the two missing
required names together. -/
theorem validate_order_first_failure_witness :
    validateArgs "t"
        (InputSchema.mk (Option.some "array") [] ["a", "b"]) [] =
      .error (.valueError "Tool 't' has unsupported schema type 'array', expected 'object'") ∧
    validateArgs "t"
        (InputSchema.mk (Option.some "object") [] ["a", "b"]) [] =
      .error (.valueError "Tool 't' missing required parameters: a, b") := by
  constructor
  · exact (validate_order_first_failure "t"
      (InputSchema.mk (Option.some "array") [] ["a", "b"]) []).1 _ rfl
  · exact (validate_order_first_failure "t"
      (InputSchema.mk (Option.some "object") [] ["a", "b"]) []).2.1 rfl _ rfl

/-- C1 counterexample: on a fresh client, a first initialize() whose
handshake reply lacks `result` connects the transport and fails; calling
initialize() again then calls transport.connect() a second time
(re-spawning/re-opening the transport), because the `_connected` flag is
set only at the end of a fully successful handshake. -/
theorem init_retry_reconnects_cex :
    (initStep initialClientState (RpcResponse.noResult "boom")).out =
      .error (.mcpError "Failed to initialize: boom") ∧
    TEvent.connect ∈ (initStep initialClientState (RpcResponse.noResult "boom")).events ∧
    TEvent.connect ∈
      (initStep (initStep initialClientState (RpcResponse.noResult "boom")).state
        (RpcResponse.result (PyValue.dict []))).events := by
  refine ⟨rfl, ?_, ?_⟩ <;>
    simp [initStep, initialClientState, build_request, get_next_id, setRid, handle_response]

/-- C1 (amended): initialize() calls transport.connect() exactly when the
client's `_connected` flag is unset, and that flag records a fully
successful prior handshake, not transport connection: a successful
initialize() sets it (so a later initialize() skips connect()), while a
failed handshake leaves it unchanged (so a retry after a failed first
handshake calls connect() again even though the transport was already
connected). -/
theorem init_connect_guard :
    ∀ (s : ClientState) (resp : RpcResponse PyValue),
      (s.connected = true → TEvent.connect ∉ (initStep s resp).events) ∧
      (s.connected = false → TEvent.connect ∈ (initStep s resp).events) ∧
      (∀ v, resp = RpcResponse.result v →
        (initStep s resp).state.connected = true ∧
        (initStep s resp).state.serverInfo = Option.some v) ∧
      (∀ m, resp = RpcResponse.noResult m →
        (initStep s resp).state.connected = s.connected ∧
        (initStep s resp).state.serverInfo = s.serverInfo) := by
  intro s resp
  refine ⟨?_, ?_, ?_, ?_⟩
  · intro h
    cases resp <;>
      simp [initStep, h, build_request, get_next_id, setRid, handle_response]
  · intro h
    cases resp <;>
      simp [initStep, h, build_request, get_next_id, setRid, handle_response]
  · intro v hv
    subst hv
    exact ⟨rfl, rfl⟩
  · intro m hm
    subst hm
    exact ⟨rfl, rfl⟩

/-- C1 witness: concrete two-attempt scenario: after a failed first
handshake the flag is still false and the retry emits connect; after a
successful handshake the flag is true and a re-initialize does not. -/
theorem init_connect_guard_witness :
    TEvent.connect ∈
      (initStep (initStep initialClientState (RpcResponse.noResult "x")).state
        (RpcResponse.noResult "y")).events ∧
    TEvent.connect ∉
      (initStep (initStep initialClientState (RpcResponse.result (PyValue.dict []))).state
        (RpcResponse.noResult "y")).events := by
  constructor
  · exact ((init_connect_guard
      (initStep initialClientState (RpcResponse.noResult "x")).state
      (RpcResponse.noResult "y")).2.1 rfl)
  · exact ((init_connect_guard
      (initStep initialClientState (RpcResponse.result (PyValue.dict []))).state
      (RpcResponse.noResult "y")).1 rfl)

/-- An initialized client with an empty tools cache (as after
initialize() but before the first list_tools()). -/
def readyColdState : ClientState :=
  ClientState.mk true (Option.some (PyValue.dict [])) Option.none 2

/-- list_tools makes no transport call, or exactly the one `tools/list`
request built from the current state (only when the cache is empty). -/
theorem list_tools_events_shape (s : ClientState) (r : RpcResponse ToolListing) :
    (list_tools s r).events = [] ∨
    (s.toolsCache = Option.none ∧
      (list_tools s r).events = [TEvent.request (build_request s "tools/list" Option.none).2]) := by
  by_cases h : notReady s
  · left; simp [list_tools, h]
  · cases hc : s.toolsCache with
    | some c => left; simp [list_tools, h, hc]
    | none =>
      right
      refine ⟨rfl, ?_⟩
      cases r <;> simp [list_tools, h, hc, handle_response]

/-- get_tool forwards the transport calls of list_tools unchanged. -/
theorem get_tool_events_shape (s : ClientState) (r : RpcResponse ToolListing) (tool : String) :
    (get_tool s r tool).events = [] ∨
    (s.toolsCache = Option.none ∧
      (get_tool s r tool).events = [TEvent.request (build_request s "tools/list" Option.none).2]) := by
  by_cases h : notReady s
  · left; simp [get_tool, h]
  · have hl := list_tools_events_shape s r
    cases ho : (list_tools s r).out with
    | error e =>
      simpa [get_tool, h, ho] using hl
    | ok listing =>
      cases hf : listing.tools.find? (fun td => td.name = tool) <;>
        simpa [get_tool, h, ho, hf] using hl

/-- validate forwards the transport calls of get_tool unchanged. -/
theorem validateStep_events_shape (s : ClientState) (r : RpcResponse ToolListing)
    (tool : String) (kwargs : List (String × PyValue)) :
    (validateStep s r tool kwargs).events = [] ∨
    (s.toolsCache = Option.none ∧
      (validateStep s r tool kwargs).events =
        [TEvent.request (build_request s "tools/list" Option.none).2]) := by
  have hg := get_tool_events_shape s r tool
  cases ho : (get_tool s r tool).out with
  | error e => simpa [validateStep, ho] using hg
  | ok td => simpa [validateStep, ho] using hg

/-- C2 counterexample: on an initialized client whose tools cache is
empty, a call_tool whose arguments fail validation (the required
parameter `param` is missing) raises the validation failure, yet one
transport request (the `tools/list` fetched for validation) was issued
for that invocation. -/
theorem call_tool_validation_traffic_cex :
    (call_tool readyColdState "test_tool" [] (RpcResponse.result testListing)
        (RpcResponse.result (PyValue.dict []))).out =
      .error (.valueError "Tool 'test_tool' missing required parameters: param") ∧
    (call_tool readyColdState "test_tool" [] (RpcResponse.result testListing)
        (RpcResponse.result (PyValue.dict []))).events =
      [TEvent.request (Request.mk "2.0" 3 "tools/list" Option.none)] := by
  exact ⟨rfl, rfl⟩

/-- C2 (amended): whenever call_tool raises a validation failure (a
ValueError), no notify and no `tools/call` request is ever issued on the
transport for that invocation; every transport request issued (there is
at most the one) is the `tools/list` fetched for validation, and when
the tool listing is already cached no transport call happens at all. -/
theorem call_tool_validation_no_call_traffic :
    ∀ (s : ClientState) (tool : String) (kwargs : List (String × PyValue))
      (lresp : RpcResponse ToolListing) (cresp : RpcResponse PyValue) (m : String),
      (call_tool s tool kwargs lresp cresp).out = .error (.valueError m) →
      (∀ n, TEvent.notify n ∉ (call_tool s tool kwargs lresp cresp).events) ∧
      (∀ r, TEvent.request r ∈ (call_tool s tool kwargs lresp cresp).events →
        r.method = "tools/list") ∧
      (∀ c, s.toolsCache = Option.some c →
        (call_tool s tool kwargs lresp cresp).events = []) := by
  intro s tool kwargs lresp cresp m hout
  by_cases h : notReady s
  · simp [call_tool, h, notReadyErr] at hout
  · cases hv : (validateStep s lresp tool kwargs).out with
    | ok u =>
      exfalso
      cases cresp <;> simp [call_tool, h, hv, handle_response] at hout
    | error e =>
      have hev : (call_tool s tool kwargs lresp cresp).events =
          (validateStep s lresp tool kwargs).events := by
        simp [call_tool, h, hv]
      rw [hev]
      rcases validateStep_events_shape s lresp tool kwargs with he | ⟨hcache, he⟩
      · rw [he]
        refine ⟨?_, ?_, ?_⟩
        · intro a ha; simp at ha
        · intro a ha; simp at ha
        · intro c hc; rfl
      · rw [he]
        refine ⟨?_, ?_, ?_⟩
        · intro n hn; simp at hn
        · intro r hr
          simp at hr
          rw [hr]
          rfl
        · intro c hc
          rw [hcache] at hc
          exact absurd hc (by simp)

/-- C2 witness: with the listing already cached, a call_tool whose
required parameter is missing raises the validation failure and issues
no transport call at all. -/
theorem call_tool_validation_no_call_traffic_witness :
    (call_tool (ClientState.mk true (Option.some (PyValue.dict []))
        (Option.some testListing) 5) "test_tool" [] (RpcResponse.result testListing)
        (RpcResponse.result (PyValue.dict []))).events = [] := by
  exact (call_tool_validation_no_call_traffic
    (ClientState.mk true (Option.some (PyValue.dict [])) (Option.some testListing) 5)
    "test_tool" [] (RpcResponse.result testListing) (RpcResponse.result (PyValue.dict []))
    "Tool 'test_tool' missing required parameters: param" rfl).2.2 testListing rfl

/-- C4: on an initialized client, when a list_tools() call returns a
listing, it issued at most one transport request, and a second
list_tools() with no intervening close() issues no transport call and
returns the identical cached listing. -/
theorem list_tools_cached_once :
    ∀ (s : ClientState) (ra rb : RpcResponse ToolListing) (l : ToolListing),
      (list_tools s ra).out = .ok l →
      (requestIds (list_tools s ra).events).length ≤ 1 ∧
      (list_tools (list_tools s ra).state rb).out = .ok l ∧
      (list_tools (list_tools s ra).state rb).events = [] := by
  intro s ra rb l hout
  by_cases h : notReady s
  · simp [list_tools, h, notReadyErr] at hout
  · cases hc : s.toolsCache with
    | some c =>
      have hl : c = l := by simpa [list_tools, h, hc] using hout
      subst hl
      refine ⟨by simp [list_tools, h, hc, requestIds], ?_, ?_⟩ <;>
        simp [list_tools, h, hc]
    | none =>
      cases ra with
      | noResult t => simp [list_tools, h, hc, handle_response] at hout
      | result la =>
        have hl : la = l := by simpa [list_tools, h, hc, handle_response] using hout
        subst hl
        have hfirst : list_tools s (RpcResponse.result la) =
            StepRes.mk
              (ClientState.mk s.connected s.serverInfo (Option.some la) (s.requestId + 1))
              [TEvent.request (Request.mk "2.0" (s.requestId + 1) "tools/list" Option.none)]
              (.ok la) := by
          simp [list_tools, h, hc, handle_response, build_request, get_next_id, setRid]
        have hready : notReady
            (ClientState.mk s.connected s.serverInfo (Option.some la) (s.requestId + 1)) =
            false := by
          rw [show notReady
            (ClientState.mk s.connected s.serverInfo (Option.some la) (s.requestId + 1)) =
            notReady s from rfl]
          cases hb : notReady s with
          | false => rfl
          | true => exact absurd hb h
        refine ⟨?_, ?_, ?_⟩
        · rw [hfirst]; simp [requestIds]
        · rw [hfirst]; simp [list_tools, hready]
        · rw [hfirst]; simp [list_tools, hready]

/-- C4 witness: concrete run: a cold initialized client fetches the test
listing once; the repeat call performs no transport request and returns
the same listing. -/
theorem list_tools_cached_once_witness :
    (list_tools (list_tools readyColdState (RpcResponse.result testListing)).state
        (RpcResponse.noResult "unused")).out = .ok testListing ∧
    (list_tools (list_tools readyColdState (RpcResponse.result testListing)).state
        (RpcResponse.noResult "unused")).events = [] := by
  have h := list_tools_cached_once readyColdState (RpcResponse.result testListing)
    (RpcResponse.noResult "unused") testListing rfl
  exact ⟨h.2.1, h.2.2⟩

/-- requestIds distributes over trace concatenation. -/
theorem requestIds_append (a b : List TEvent) :
    requestIds (a ++ b) = requestIds a ++ requestIds b := by
  induction a with
  | nil => rfl
  | cons e tr ih => cases e <;> simp [requestIds, ih]

/-- Id discipline of one client operation started in state `s`: the id
counter advances by exactly the number of requests issued, and those
requests carry the consecutive ids `s.requestId + 1, ...`. -/
def IdsOk {α : Type} (s : ClientState) (x : StepRes α) : Prop :=
  x.state.requestId = s.requestId + (requestIds x.events).length ∧
  requestIds x.events =
    List.range' (s.requestId + 1) ((requestIds x.events).length)

theorem idsOk_list_tools (s : ClientState) (r : RpcResponse ToolListing) :
    IdsOk s (list_tools s r) := by
  by_cases h : notReady s
  · simp [IdsOk, list_tools, h, requestIds]
  · cases hc : s.toolsCache with
    | some c => simp [IdsOk, list_tools, h, hc, requestIds]
    | none =>
      cases r <;>
        simp [IdsOk, list_tools, h, hc, handle_response, build_request, get_next_id,
          setRid, requestIds, List.range'_one]

theorem idsOk_get_tool (s : ClientState) (r : RpcResponse ToolListing) (tool : String) :
    IdsOk s (get_tool s r tool) := by
  by_cases h : notReady s
  · simp [IdsOk, get_tool, h, requestIds]
  · have hl := idsOk_list_tools s r
    cases ho : (list_tools s r).out with
    | error e => simpa [IdsOk, get_tool, h, ho] using hl
    | ok listing =>
      cases hf : listing.tools.find? (fun td => td.name = tool) <;>
        simpa [IdsOk, get_tool, h, ho, hf] using hl

theorem idsOk_validateStep (s : ClientState) (r : RpcResponse ToolListing)
    (tool : String) (kwargs : List (String × PyValue)) :
    IdsOk s (validateStep s r tool kwargs) := by
  have hg := idsOk_get_tool s r tool
  cases ho : (get_tool s r tool).out with
  | error e => simpa [IdsOk, validateStep, ho] using hg
  | ok td => simpa [IdsOk, validateStep, ho] using hg

/-- Appending one element `a + L.length` to a consecutive run starting
at `a` yields the longer consecutive run. -/
theorem snoc_range' (a x : Nat) (L : List Nat) (hL : L = List.range' a L.length)
    (hx : x = a + L.length) :
    L ++ [x] = List.range' a ((L ++ [x]).length) := by
  have hlen : (L ++ [x]).length = L.length + 1 := by simp
  rw [hlen, List.range'_1_concat, ← hL, hx]

theorem idsOk_call_tool (s : ClientState) (tool : String)
    (kwargs : List (String × PyValue)) (lresp : RpcResponse ToolListing)
    (cresp : RpcResponse PyValue) :
    IdsOk s (call_tool s tool kwargs lresp cresp) := by
  by_cases h : notReady s
  · simp [IdsOk, call_tool, h, requestIds]
  · obtain ⟨h1, h2⟩ := idsOk_validateStep s lresp tool kwargs
    cases ho : (validateStep s lresp tool kwargs).out with
    | error e =>
      have hred : call_tool s tool kwargs lresp cresp =
          StepRes.mk (validateStep s lresp tool kwargs).state
            (validateStep s lresp tool kwargs).events (.error e) := by
        simp [call_tool, h, ho]
      rw [IdsOk, hred]
      exact ⟨h1, h2⟩
    | ok u =>
      have hgoal : ∀ out2 : Except PyErr PyValue, IdsOk s
          (StepRes.mk
            (setRid (validateStep s lresp tool kwargs).state
              ((validateStep s lresp tool kwargs).state.requestId + 1))
            ((validateStep s lresp tool kwargs).events ++
              [TEvent.request (Request.mk "2.0"
                ((validateStep s lresp tool kwargs).state.requestId + 1) "tools/call"
                (Option.some [("name", .str tool), ("arguments", .dict kwargs)]))])
            out2) := by
        intro out2
        constructor
        · simp only [setRid, requestIds_append, List.length_append, requestIds,
            List.length_cons, List.length_nil]
          omega
        · simp only [requestIds_append, requestIds]
          exact snoc_range' (s.requestId + 1) _ _ h2 (by omega)
      cases cresp with
      | result v2 =>
        have hk := hgoal (.ok v2)
        have hred : call_tool s tool kwargs lresp (RpcResponse.result v2) =
            StepRes.mk
              (setRid (validateStep s lresp tool kwargs).state
                ((validateStep s lresp tool kwargs).state.requestId + 1))
              ((validateStep s lresp tool kwargs).events ++
                [TEvent.request (Request.mk "2.0"
                  ((validateStep s lresp tool kwargs).state.requestId + 1) "tools/call"
                  (Option.some [("name", .str tool), ("arguments", .dict kwargs)]))])
              (.ok v2) := by
          simp [call_tool, h, ho, handle_response, build_request, get_next_id, setRid]
        rw [IdsOk, hred]
        exact hk
      | noResult t =>
        have hk := hgoal (.error (.mcpError
          ("Failed to " ++ ("call tool '" ++ tool ++ "'") ++ ": " ++ t)))
        have hred : call_tool s tool kwargs lresp (RpcResponse.noResult t) =
            StepRes.mk
              (setRid (validateStep s lresp tool kwargs).state
                ((validateStep s lresp tool kwargs).state.requestId + 1))
              ((validateStep s lresp tool kwargs).events ++
                [TEvent.request (Request.mk "2.0"
                  ((validateStep s lresp tool kwargs).state.requestId + 1) "tools/call"
                  (Option.some [("name", .str tool), ("arguments", .dict kwargs)]))])
              (.error (.mcpError
                ("Failed to " ++ ("call tool '" ++ tool ++ "'") ++ ": " ++ t))) := by
          simp [call_tool, h, ho, handle_response, build_request, get_next_id, setRid]
        rw [IdsOk, hred]
        exact hk

/-- Id discipline of every non-close operation. -/
theorem step_ids (s : ClientState) (op : Op) (h : op ≠ Op.close) :
    (stepOp s op).1.requestId = s.requestId + (requestIds (stepOp s op).2).length ∧
    requestIds (stepOp s op).2 =
      List.range' (s.requestId + 1) ((requestIds (stepOp s op).2).length) := by
  cases op with
  | init r =>
    by_cases hb : s.connected <;> cases r <;>
      simp [stepOp, initStep, hb, handle_response, build_request, get_next_id, setRid,
        requestIds, List.range'_one]
  | listTools r => simpa [stepOp, IdsOk] using idsOk_list_tools s r
  | getTool t r => simpa [stepOp, IdsOk] using idsOk_get_tool s r t
  | callTool t kw lr cr => simpa [stepOp, IdsOk] using idsOk_call_tool s t kw lr cr
  | close => exact absurd rfl h

/-- Over any close-free operation sequence the id counter advances by
exactly the number of requests issued, and the request ids are the
consecutive integers continuing from the starting counter. -/
theorem run_ids_no_close (ops : List Op) :
    ∀ s : ClientState, (∀ op ∈ ops, op ≠ Op.close) →
      (runOps s ops).1.requestId = s.requestId + (requestIds (runOps s ops).2).length ∧
      requestIds (runOps s ops).2 =
        List.range' (s.requestId + 1) ((requestIds (runOps s ops).2).length) := by
  induction ops with
  | nil => intro s h; simp [runOps, requestIds]
  | cons op ops ih =>
    intro s h
    have hop : op ≠ Op.close := h op (by simp)
    have hrest : ∀ o ∈ ops, o ≠ Op.close := fun o ho => h o (by simp [ho])
    obtain ⟨h1, h2⟩ := step_ids s op hop
    obtain ⟨h3, h4⟩ := ih (stepOp s op).1 hrest
    constructor
    · simp only [runOps, requestIds_append, List.length_append]
      omega
    · simp only [runOps, requestIds_append, List.length_append]
      rw [h2, h4]
      simp only [List.length_range']
      have hx : (stepOp s op).1.requestId + 1 =
          (s.requestId + 1) + (requestIds (stepOp s op).2).length := by omega
      rw [hx, Nat.add_comm ((requestIds (stepOp s op).2).length)
        ((requestIds (runOps (stepOp s op).1 ops).2).length)]
      exact List.range'_append_1 _ _ _

/-- C3: over every operation sequence of one client: (a) starting from a
fresh client, along any close-free sequence the outbound request ids are
exactly 1, 2, ..., n in order (a strictly increasing integer sequence
starting at 1); (b) every non-close operation advances the id counter by
exactly the number of requests it issued, numbering them consecutively
from the counter (so notifications and all other transport calls consume
no id, and no non-close operation ever lowers or resets the counter);
(c) close() issues no request and resets the counter to 0. -/
theorem request_id_discipline :
    (∀ ops : List Op, (∀ op ∈ ops, op ≠ Op.close) →
      requestIds (runOps initialClientState ops).2 =
        List.range' 1 ((requestIds (runOps initialClientState ops).2).length) ∧
      (runOps initialClientState ops).1.requestId =
        (requestIds (runOps initialClientState ops).2).length) ∧
    (∀ (s : ClientState) (op : Op), op ≠ Op.close →
      (stepOp s op).1.requestId = s.requestId + (requestIds (stepOp s op).2).length ∧
      requestIds (stepOp s op).2 =
        List.range' (s.requestId + 1) ((requestIds (stepOp s op).2).length)) ∧
    (∀ s : ClientState,
      (stepOp s Op.close).1.requestId = 0 ∧ requestIds (stepOp s Op.close).2 = []) := by
  refine ⟨?_, ?_, ?_⟩
  · intro ops h
    obtain ⟨h1, h2⟩ := run_ids_no_close ops initialClientState h
    constructor
    · simpa [initialClientState] using h2
    · simpa [initialClientState] using h1
  · exact step_ids
  · intro s
    exact ⟨rfl, rfl⟩

/-- C3 witness: a concrete session: initialize, then a cold list_tools,
then a call_tool (validating against the cached listing) issues requests
with ids exactly [1, 2, 3]; applying close() resets the counter to 0. -/
theorem request_id_discipline_witness :
    requestIds (runOps initialClientState
      [Op.init (RpcResponse.result (PyValue.dict [])),
       Op.listTools (RpcResponse.result testListing),
       Op.callTool "test_tool" [("param", PyValue.str "x")]
         (RpcResponse.result testListing) (RpcResponse.result (PyValue.dict []))]).2 =
      [1, 2, 3] ∧
    (stepOp (ClientState.mk true (Option.some (PyValue.dict []))
      (Option.some testListing) 7) Op.close).1.requestId = 0 := by
  constructor
  · have h := (request_id_discipline.1
      [Op.init (RpcResponse.result (PyValue.dict [])),
       Op.listTools (RpcResponse.result testListing),
       Op.callTool "test_tool" [("param", PyValue.str "x")]
         (RpcResponse.result testListing) (RpcResponse.result (PyValue.dict []))]
      (by
        intro op hop
        simp only [List.mem_cons, List.not_mem_nil, or_false] at hop
        rcases hop with h | h | h <;> subst h <;> simp)).1
    rw [h]
    rfl
  · exact ((request_id_discipline.2.2
      (ClientState.mk true (Option.some (PyValue.dict [])) (Option.some testListing) 7))).1

/-- The per-call state of `StreamableHTTP` (transport.py lines 220-232):
the caller-supplied extra headers (copied at construction) and the
optional session id learned from a prior response. -/
structure HttpState where
  customHeaders : List (String × String)
  sessionId : Option String
deriving DecidableEq, Repr

/-- Python dict assignment `d[k] = v`: overwrite the binding if the key
exists, else append it. -/
def dictSet (hs : List (String × String)) (k v : String) : List (String × String) :=
  if hs.any (fun kv => kv.fst = k) then
    hs.map (fun kv => if kv.fst = k then (k, v) else kv)
  else hs ++ [(k, v)]

/-- Python `d.update(u)`: assign every binding of `u` into `d`. -/
def dictUpdate (hs upd : List (String × String)) : List (String × String) :=
  upd.foldl (fun acc kv => dictSet acc kv.fst kv.snd) hs

/-- Python `d.get(k)` on a headers dict. -/
def hget (hs : List (String × String)) (k : String) : Option String :=
  (hs.find? (fun kv => kv.fst = k)).map (fun kv => kv.snd)

/-- The fixed base headers of `StreamableHTTP._build_headers`
(transport.py lines 316-320). -/
def baseHeaders : List (String × String) :=
  [("Content-Type", "application/json"),
   ("Accept", "application/json, text/event-stream"),
   ("MCP-Protocol-Version", "2025-06-18")]

/-- StreamableHTTP._build_headers (transport.py lines 310-329): base
headers, updated with the custom headers, then the session id added
under `Mcp-Session-Id` — but only when truthy (Python `if
self._session_id:`), so an empty stored session id is not attached. -/
def build_headers (st : HttpState) : List (String × String) :=
  let headers := dictUpdate baseHeaders st.customHeaders
  match st.sessionId with
  | Option.some s => if s ≠ "" then dictSet headers "Mcp-Session-Id" s else headers
  | Option.none => headers

/-- StreamableHTTP._extract_session_id (transport.py lines 331-340):
whenever the response carries an `Mcp-Session-Id` header (here
`respHeader`), store its value; otherwise keep the current one. -/
def extract_session_id (st : HttpState) (respHeader : Option String) : HttpState :=
  HttpState.mk st.customHeaders
    (match respHeader with
     | Option.some h => Option.some h
     | Option.none => st.sessionId)

/-- One request or notification on the HTTP transport, as far as headers
and session state are concerned (request and notify share this path,
transport.py lines 242-301): headers are built from the current state
before the POST, and the session id is extracted from the response
afterwards.  Returns the headers sent and the successor state. -/
def httpCall (st : HttpState) (respSession : Option String) :
    List (String × String) × HttpState :=
  (build_headers st, extract_session_id st respSession)

/-- A sequence of HTTP calls, collecting the headers sent on each one;
`resps` lists each response's `Mcp-Session-Id` header. -/
def httpRun (st : HttpState) : List (Option String) → List (List (String × String)) × HttpState
  | [] => ([], st)
  | r :: rs =>
    let c := httpCall st r
    let y := httpRun c.2 rs
    (c.1 :: y.1, y.2)

/-- Setting a key by dict assignment makes lookup return that value. -/
theorem hget_dictSet (hs : List (String × String)) (k v : String) :
    hget (dictSet hs k v) k = Option.some v := by
  unfold dictSet
  split
  case isTrue h =>
    induction hs with
    | nil => simp at h
    | cons kv rest ih =>
      by_cases hk : kv.fst = k
      · simp [hget, hk]
      · simp only [List.any_cons, Bool.or_eq_true] at h
        rcases h with h | h
        · exact absurd (by simpa using h) hk
        · simpa [hget, hk] using ih h
  case isFalse h =>
    have hnone : hs.find? (fun kv => kv.fst = k) = Option.none := by
      rw [List.find?_eq_none]
      intro kv hkv
      by_contra hc
      exact h (List.any_eq_true.mpr ⟨kv, hkv, by simpa using hc⟩)
    simp [hget, List.find?_append, hnone]

/-- A nonempty stored session id is attached to the built headers. -/
theorem build_headers_session (st : HttpState) (s : String)
    (hs : st.sessionId = Option.some s) (hne : s ≠ "") :
    hget (build_headers st) "Mcp-Session-Id" = Option.some s := by
  unfold build_headers
  rw [hs]
  simp only [hne, ne_eq, not_false_iff, if_true]
  exact hget_dictSet _ _ _

/-- C5 counterexample: a response carrying an `Mcp-Session-Id` header
with the empty value makes the transport store that session id, yet the
next request's headers do not carry it: Python `if self._session_id:`
skips a falsy (empty) session id. -/
theorem session_id_empty_header_cex :
    (extract_session_id (HttpState.mk [] Option.none) (Option.some "")).sessionId =
      Option.some "" ∧
    hget (build_headers (extract_session_id (HttpState.mk [] Option.none)
      (Option.some ""))) "Mcp-Session-Id" = Option.none := by
  exact ⟨rfl, rfl⟩

/-- C5 (amended): once a response carries a nonempty `Mcp-Session-Id`
value s, every subsequent request and notification from that transport
instance carries `Mcp-Session-Id: s` until a later response carrying a
different session id replaces the stored one; any response carrying the
header (empty or not) replaces the stored id, and a response without it
leaves the stored id unchanged.  (An empty replacement is stored but not
attached, per the counterexample.) -/
theorem session_id_persistence :
    (∀ (st : HttpState) (s : String) (resps : List (Option String)),
      st.sessionId = Option.some s → s ≠ "" →
      (∀ r ∈ resps, r = Option.none ∨ r = Option.some s) →
      (∀ hs ∈ (httpRun st resps).1, hget hs "Mcp-Session-Id" = Option.some s) ∧
      (httpRun st resps).2.sessionId = Option.some s) ∧
    (∀ (st : HttpState) (t : String),
      (extract_session_id st (Option.some t)).sessionId = Option.some t) ∧
    (∀ st : HttpState, (extract_session_id st Option.none).sessionId = st.sessionId) := by
  refine ⟨?_, ?_, ?_⟩
  · intro st s resps
    induction resps generalizing st with
    | nil =>
      intro hsess hne hr
      exact ⟨by simp [httpRun], by simpa [httpRun] using hsess⟩
    | cons r rs ih =>
      intro hsess hne hr
      have hr0 : r = Option.none ∨ r = Option.some s := hr r (by simp)
      have hrest : ∀ x ∈ rs, x = Option.none ∨ x = Option.some s :=
        fun x hx => hr x (by simp [hx])
      have hst2 : (extract_session_id st r).sessionId = Option.some s := by
        rcases hr0 with h | h <;> subst h <;> simp [extract_session_id, hsess]
      obtain ⟨ih1, ih2⟩ := ih (extract_session_id st r) hst2 hne hrest
      refine ⟨?_, ?_⟩
      · intro hs hmem
        simp only [httpRun, httpCall, List.mem_cons] at hmem
        rcases hmem with hmem | hmem
        · rw [hmem]
          exact build_headers_session st s hsess hne
        · exact ih1 hs hmem
      · simp only [httpRun, httpCall]
        exact ih2
  · intro st t
    rfl
  · intro st
    rfl

/-- C5 witness: a transport holding session id "abc" attaches it to the
next request's headers, and after two further calls (one response silent,
one repeating "abc") the stored session id is still "abc". -/
theorem session_id_persistence_witness :
    hget (build_headers (HttpState.mk [] (Option.some "abc"))) "Mcp-Session-Id" =
      Option.some "abc" ∧
    (httpRun (HttpState.mk [] (Option.some "abc"))
      [Option.none, Option.some "abc"]).2.sessionId = Option.some "abc" := by
  have h := session_id_persistence.1 (HttpState.mk [] (Option.some "abc")) "abc"
    [Option.none, Option.some "abc"] rfl (by decide)
    (by
      intro r hr
      simp only [List.mem_cons, List.not_mem_nil, or_false] at hr
      rcases hr with h | h <;> simp [h])
  refine ⟨?_, h.2⟩
  exact h.1 (build_headers (HttpState.mk [] (Option.some "abc")))
    (by simp [httpRun, httpCall])

/-- State of the `Stdio` transport's child process handle: `notStarted`
(`self._process is None`), `running` (`poll()` is None), or `exited`
with its captured output (`poll()` not None; `communicate()` returns
stdout/stderr). -/
inductive ProcState where
  | notStarted
  | running
  | exited (stdoutText stderrText : String)
deriving DecidableEq, Repr

/-- Outcome of the bounded `select.select` wait on the process's stdout
(transport.py line 127): either data became ready within the window (its
decoded JSON value; JSON decoding of the ready chunk is modelled as
already done since no claim concerns malformed payloads), or nothing
became ready. -/
inductive SelectOutcome where
  | ready (v : PyValue)
  | timedOut
deriving Repr

/-- Stdio._stdout_read (transport.py lines 116-138): with no process
handle the empty response dict is returned; otherwise a select with the
bounded `waitTimeout` (default 5 in the source) either times out —
raising AnsibleConnectionFailure with the timeout message — or yields
the decoded response. -/
def stdout_read (p : ProcState) (sel : SelectOutcome) (waitTimeout : Nat) :
    Except PyErr PyValue :=
  match p with
  | .notStarted => .ok (.dict [])
  | _ =>
    match sel with
    | .timedOut =>
      .error (.connFailure ("MCP server response timeout after " ++
        toString waitTimeout ++ " seconds."))
    | .ready v => .ok v

/-- Stdio.request (transport.py lines 182-199) under the
`_ensure_server_started` decorator (lines 151-165): a missing or exited
process fails before any I/O; otherwise the payload is written (writes
are modelled as succeeding; no claim concerns write errors) and the
reply is read with the default 5-second window; any exception raised
inside the try block — including the timeout's AnsibleConnectionFailure
— is re-raised as AnsibleConnectionFailure with the "Error sending
request to MCP server: " prefix around `str(e)`. -/
def stdio_request (p : ProcState) (sel : SelectOutcome) : Except PyErr PyValue :=
  match p with
  | .notStarted => .error (.connFailure "MCP server process not started.")
  | .exited stdoutText stderrText =>
    .error (.connFailure ("MCP server process terminated unexpectedly. stdout: " ++
      stdoutText ++ ", stderr: " ++ stderrText))
  | .running =>
    match stdout_read .running sel 5 with
    | .ok v => .ok v
    | .error e =>
      .error (.connFailure ("Error sending request to MCP server: " ++ errMsg e))

/-- C8 counterexample: the timeout failure is raised as the very same
exception class (AnsibleConnectionFailure) as the process-lifecycle
transport failures — the code has no Timeout kind distinguishable from
TransportFailure; only the message text differs. -/
theorem timeout_same_class_cex :
    stdio_request ProcState.running SelectOutcome.timedOut =
      .error (.connFailure
        "Error sending request to MCP server: MCP server response timeout after 5 seconds.") ∧
    errClass (PyErr.connFailure
      "Error sending request to MCP server: MCP server response timeout after 5 seconds.") =
      errClass (PyErr.connFailure "MCP server process not started.") ∧
    stdio_request ProcState.notStarted SelectOutcome.timedOut =
      .error (.connFailure "MCP server process not started.") := by
  exact ⟨rfl, rfl, rfl⟩

/-- C8 (amended): when a request awaits a reply on the running subprocess
and no data becomes ready within the bounded wait window (default 5
seconds), the operation fails with an AnsibleConnectionFailure whose
message reports the response timeout ("MCP server response timeout after
5 seconds.", wrapped in the request error prefix); the read primitive
reports the configured window in its message for every window size; a
reply that does become ready in time is returned successfully.  The
failure's exception class is AnsibleConnectionFailure, the same class as
the other transport failures, so callers can tell the timeout apart only
by the message. -/
theorem stdio_timeout_failure :
    (stdio_request ProcState.running SelectOutcome.timedOut =
      .error (.connFailure
        "Error sending request to MCP server: MCP server response timeout after 5 seconds.")) ∧
    (∀ w : Nat, stdout_read ProcState.running SelectOutcome.timedOut w =
      .error (.connFailure ("MCP server response timeout after " ++
        toString w ++ " seconds."))) ∧
    (∀ v : PyValue, stdio_request ProcState.running (SelectOutcome.ready v) = .ok v) ∧
    errClass (PyErr.connFailure
      "Error sending request to MCP server: MCP server response timeout after 5 seconds.") =
      "AnsibleConnectionFailure" := by
  exact ⟨rfl, fun w => rfl, fun v => rfl, rfl⟩
